import Mathlib

/- Verification of the `optics` ray-tracing library against its specification.

   The Python sources are embedded shallowly:
   - rays.py     : frame transforms on batches of ray origins/directions (RayBundle),
   - surfaces.py : Surface.intersections, Surface.normals, SphericalSurface.sag,
   - screen.py   : Screen.capture,
   - sources.py  : GaussianBeamSource.generate,
   - apertures.py: CircularAperture.contains.

   Numpy `N x 3` arrays become lists of `Fin 3 → α` vectors; float arithmetic is
   modelled by exact arithmetic (`ℝ`, or `ℚ` where the embedded code needs
   computable/decidable comparisons).  Python exceptions — in particular reads of
   object attributes that are never assigned, which raise `AttributeError` — are
   modelled with `Except String`. -/

/-- A 3-vector: one row of an `N x 3` numpy array. -/
abbrev Vec3 (α : Type) := Fin 3 → α

/-- A `3 x 3` matrix, indexed row-then-column. -/
abbrev Mat3 (α : Type) := Fin 3 → Fin 3 → α

/-- Row-vector times matrix, `np.matmul(v, M)` for a row `v`:
`(v ⬝ M) j = ∑ i, v i * M i j`. -/
def rowMul {α : Type} [CommRing α] (v : Vec3 α) (M : Mat3 α) : Vec3 α :=
  fun j => ∑ i, v i * M i j

/-- Matrix transpose, `M.T`. -/
def transposeMat {α : Type} (M : Mat3 α) : Mat3 α := fun i j => M j i

/-- Embedding of `RayBundle.localToGlobal` (rays.py lines 25-33):
`global_origins = np.matmul(origins, rotation) + origin` (translation applied to
points only) and `global_directions = np.matmul(directions, rotation)`. -/
def localToGlobal {α : Type} [CommRing α] (origins directions : List (Vec3 α))
    (origin : Vec3 α) (rotation : Mat3 α) : List (Vec3 α) × List (Vec3 α) :=
  (origins.map (fun p => fun j => rowMul p rotation j + origin j),
   directions.map (fun d => rowMul d rotation))

/-- Embedding of `RayBundle.globalToLocal` (rays.py lines 35-43):
`local_origins = np.matmul(origins - origin, rotation.T)` and
`local_directions = np.matmul(directions, rotation.T)`. -/
def globalToLocal {α : Type} [CommRing α] (origins directions : List (Vec3 α))
    (origin : Vec3 α) (rotation : Mat3 α) : List (Vec3 α) × List (Vec3 α) :=
  (origins.map (fun p => rowMul (fun j => p j - origin j) (transposeMat rotation)),
   directions.map (fun d => rowMul d (transposeMat rotation)))

/-- The rows of `M` are orthonormal: `M * M.T = I`.  This is the spec's invariant on
a surface rotation matrix (spec section 3). -/
def rowsOrthonormal (M : Mat3 ℝ) : Prop :=
  ∀ k j, (∑ i, M k i * M j i) = if k = j then (1 : ℝ) else 0

theorem rowMul_transposeMat_rowMul (M : Mat3 ℝ) (h : rowsOrthonormal M) (v : Vec3 ℝ) :
    rowMul (rowMul v M) (transposeMat M) = v := by
  funext j
  show (∑ i, (∑ k, v k * M k i) * M j i) = v j
  calc (∑ i, (∑ k, v k * M k i) * M j i)
      = ∑ i, ∑ k, v k * (M k i * M j i) := by
        refine Finset.sum_congr rfl fun i _ => ?_
        rw [Finset.sum_mul]
        exact Finset.sum_congr rfl fun k _ => by ring
    _ = ∑ k, ∑ i, v k * (M k i * M j i) := Finset.sum_comm
    _ = ∑ k, v k * (∑ i, M k i * M j i) := by
        refine Finset.sum_congr rfl fun k _ => ?_
        rw [Finset.mul_sum]
    _ = ∑ k, v k * (if k = j then 1 else 0) := by
        refine Finset.sum_congr rfl fun k _ => ?_
        rw [h k j]
    _ = v j := by simp

/-- C3: for every batch of points and directions, every row-orthonormal rotation and
every origin, applying `globalToLocal` to the output of `localToGlobal` returns the
original batches within `1e-9` absolute tolerance (here the round trip is exact, so
every coordinate difference is `0 ≤ 1e-9`): points use rotation plus translation,
directions rotation only. -/
theorem frame_transform_round_trip (rotation : Mat3 ℝ) (origin : Vec3 ℝ)
    (h : rowsOrthonormal rotation) (origins directions : List (Vec3 ℝ)) :
    (globalToLocal (localToGlobal origins directions origin rotation).1
        (localToGlobal origins directions origin rotation).2 origin rotation).1.length
      = origins.length ∧
    (globalToLocal (localToGlobal origins directions origin rotation).1
        (localToGlobal origins directions origin rotation).2 origin rotation).2.length
      = directions.length ∧
    (∀ i : ℕ, ∀ j : Fin 3,
      |(globalToLocal (localToGlobal origins directions origin rotation).1
          (localToGlobal origins directions origin rotation).2 origin rotation).1.getD i
            (fun _ => 0) j
        - origins.getD i (fun _ => 0) j| ≤ 1e-9) ∧
    (∀ i : ℕ, ∀ j : Fin 3,
      |(globalToLocal (localToGlobal origins directions origin rotation).1
          (localToGlobal origins directions origin rotation).2 origin rotation).2.getD i
            (fun _ => 0) j
        - directions.getD i (fun _ => 0) j| ≤ 1e-9) := by
  have hpt : (globalToLocal (localToGlobal origins directions origin rotation).1
      (localToGlobal origins directions origin rotation).2 origin rotation).1 = origins := by
    show (origins.map _).map _ = origins
    rw [List.map_map]
    have hcomp : ((fun p : Vec3 ℝ => rowMul (fun j => p j - origin j) (transposeMat rotation)) ∘
        (fun p : Vec3 ℝ => fun j => rowMul p rotation j + origin j)) = id := by
      funext p
      show rowMul (fun j => (rowMul p rotation j + origin j) - origin j) (transposeMat rotation) = p
      have hcancel : (fun j => (rowMul p rotation j + origin j) - origin j) = rowMul p rotation := by
        funext j; ring
      rw [hcancel, rowMul_transposeMat_rowMul rotation h p]
    rw [hcomp, List.map_id]
  have hdir : (globalToLocal (localToGlobal origins directions origin rotation).1
      (localToGlobal origins directions origin rotation).2 origin rotation).2 = directions := by
    show (directions.map _).map _ = directions
    rw [List.map_map]
    have hcomp : ((fun d : Vec3 ℝ => rowMul d (transposeMat rotation)) ∘
        (fun d : Vec3 ℝ => rowMul d rotation)) = id := by
      funext d
      exact rowMul_transposeMat_rowMul rotation h d
    rw [hcomp, List.map_id]
  refine ⟨by rw [hpt], by rw [hdir], fun i j => ?_, fun i j => ?_⟩
  · rw [hpt]
    simp only [sub_self, abs_zero]
    norm_num
  · rw [hdir]
    simp only [sub_self, abs_zero]
    norm_num

/-- Witness for C3: the round-trip theorem applied to the identity rotation, zero
origin, one point and one direction. -/
theorem frame_transform_round_trip_witness :
    rowsOrthonormal (fun i j => if i = j then (1 : ℝ) else 0) ∧
    (globalToLocal
        (localToGlobal [![1, 2, 3]] [![0, 0, 1]] (fun _ => 0)
          (fun i j => if i = j then (1 : ℝ) else 0)).1
        (localToGlobal [![1, 2, 3]] [![0, 0, 1]] (fun _ => 0)
          (fun i j => if i = j then (1 : ℝ) else 0)).2 (fun _ => 0)
        (fun i j => if i = j then (1 : ℝ) else 0)).1.length = [![(1 : ℝ), 2, 3]].length := by
  have horth : rowsOrthonormal (fun i j => if i = j then (1 : ℝ) else 0) := by
    intro k j
    fin_cases k <;> fin_cases j <;> simp [Fin.sum_univ_three]
  exact ⟨horth, (frame_transform_round_trip _ (fun _ => 0) horth [![1, 2, 3]] [![0, 0, 1]]).1⟩

/-- The forward-difference step of `Surface.normals` (surfaces.py line 39):
`epsilon = 100e-9`, on the order of an optical wavelength. -/
def sagEpsilon : ℝ := 100e-9

/-- Embedding of `Surface.normals` (surfaces.py lines 29-55) at one local point
`(x, y)`, generic in the subclass `sag` capability.  The source computes the
UNdivided forward differences `dsag_dx = sag(x+eps, y) - sag(x, y)` and
`dsag_dy = sag(x, y+eps) - sag(x, y)` and returns
`(-dsag_dx, -dsag_dy, eps) / sqrt(dsag_dx^2 + dsag_dy^2 + eps^2)`. -/
noncomputable def Surface.normals (sag : ℝ → ℝ → ℝ) (x y : ℝ) : Vec3 ℝ :=
  let s := sag x y
  let dsag_dx := sag (x + sagEpsilon) y - s
  let dsag_dy := sag x (y + sagEpsilon) - s
  let norm := Real.sqrt (dsag_dx ^ 2 + dsag_dy ^ 2 + sagEpsilon ^ 2)
  ![-dsag_dx / norm, -dsag_dy / norm, sagEpsilon / norm]

theorem Surface.normals_def (sag : ℝ → ℝ → ℝ) (x y : ℝ) :
    Surface.normals sag x y =
      ![-(sag (x + sagEpsilon) y - sag x y) /
          Real.sqrt ((sag (x + sagEpsilon) y - sag x y) ^ 2 +
            (sag x (y + sagEpsilon) - sag x y) ^ 2 + sagEpsilon ^ 2),
        -(sag x (y + sagEpsilon) - sag x y) /
          Real.sqrt ((sag (x + sagEpsilon) y - sag x y) ^ 2 +
            (sag x (y + sagEpsilon) - sag x y) ^ 2 + sagEpsilon ^ 2),
        sagEpsilon /
          Real.sqrt ((sag (x + sagEpsilon) y - sag x y) ^ 2 +
            (sag x (y + sagEpsilon) - sag x y) ^ 2 + sagEpsilon ^ 2)] := rfl

/-- C7: for every sag function and local point, `Surface.normals` returns exactly the
unit vector `(-d_x, -d_y, 1) / sqrt(d_x^2 + d_y^2 + 1)` where `d_x` and `d_y` are
the forward differences DIVIDED by the step: the source's undivided differences with
third component `eps` give the same vector after normalization, since the two
unnormalized vectors differ by the positive factor `eps`. -/
theorem normals_eq_divided_difference_formula (sag : ℝ → ℝ → ℝ) (x y : ℝ) :
    Surface.normals sag x y = (fun j =>
      (![-((sag (x + sagEpsilon) y - sag x y) / sagEpsilon),
         -((sag x (y + sagEpsilon) - sag x y) / sagEpsilon), 1] : Vec3 ℝ) j /
      Real.sqrt (((sag (x + sagEpsilon) y - sag x y) / sagEpsilon) ^ 2 +
        ((sag x (y + sagEpsilon) - sag x y) / sagEpsilon) ^ 2 + 1)) := by
  have heps : (0 : ℝ) < sagEpsilon := by norm_num [sagEpsilon]
  rw [Surface.normals_def]
  set dx := sag (x + sagEpsilon) y - sag x y with hdx
  set dy := sag x (y + sagEpsilon) - sag x y with hdy
  have hA : (0 : ℝ) < (dx / sagEpsilon) ^ 2 + (dy / sagEpsilon) ^ 2 + 1 := by positivity
  have hsplit : dx ^ 2 + dy ^ 2 + sagEpsilon ^ 2
      = sagEpsilon ^ 2 * ((dx / sagEpsilon) ^ 2 + (dy / sagEpsilon) ^ 2 + 1) := by
    field_simp
  have hsqrt : Real.sqrt (dx ^ 2 + dy ^ 2 + sagEpsilon ^ 2)
      = sagEpsilon * Real.sqrt ((dx / sagEpsilon) ^ 2 + (dy / sagEpsilon) ^ 2 + 1) := by
    rw [hsplit, Real.sqrt_mul (sq_nonneg _), Real.sqrt_sq heps.le]
  have hs : Real.sqrt ((dx / sagEpsilon) ^ 2 + (dy / sagEpsilon) ^ 2 + 1) ≠ 0 :=
    (Real.sqrt_pos.mpr hA).ne'
  funext j
  fin_cases j <;>
    simp only [hsqrt, Pi.div_apply, Matrix.cons_val_zero, Matrix.cons_val_one,
      Matrix.head_cons, Matrix.cons_val_two, Matrix.tail_cons] <;>
    field_simp <;> ring

/-- Embedding of `SphericalSurface.sag` (surfaces.py lines 115-125) at one local
point: `r2 = x^2 + y^2`; for a negative radius `R + sqrt(R^2 - r2)`, otherwise
`R - sqrt(R^2 - r2)`. -/
noncomputable def SphericalSurface.sag (radius x y : ℝ) : ℝ :=
  let r2 := x ^ 2 + y ^ 2
  if radius < 0 then radius + Real.sqrt (radius ^ 2 - r2)
  else radius - Real.sqrt (radius ^ 2 - r2)

/-- C8: for every nonzero radius and local point with `x^2 + y^2 ≤ R^2`,
`SphericalSurface.sag` equals the analytic value `R - sign(R) * sqrt(R^2 - x^2 - y^2)`,
and at the vertex `sag R 0 0 = 0`. -/
theorem sphericalSag_analytic (radius x y : ℝ) (hR : radius ≠ 0)
    (hin : x ^ 2 + y ^ 2 ≤ radius ^ 2) :
    SphericalSurface.sag radius x y
      = radius - Real.sign radius * Real.sqrt (radius ^ 2 - x ^ 2 - y ^ 2) ∧
    SphericalSurface.sag radius 0 0 = 0 := by
  have hrw : radius ^ 2 - (x ^ 2 + y ^ 2) = radius ^ 2 - x ^ 2 - y ^ 2 := by ring
  rcases lt_or_gt_of_ne hR with hneg | hpos
  · constructor
    · show (if radius < 0 then radius + Real.sqrt (radius ^ 2 - (x ^ 2 + y ^ 2))
        else radius - Real.sqrt (radius ^ 2 - (x ^ 2 + y ^ 2)))
          = radius - Real.sign radius * Real.sqrt (radius ^ 2 - x ^ 2 - y ^ 2)
      rw [if_pos hneg, Real.sign_of_neg hneg, hrw]
      ring
    · show (if radius < 0 then radius + Real.sqrt (radius ^ 2 - (0 ^ 2 + 0 ^ 2))
        else radius - Real.sqrt (radius ^ 2 - (0 ^ 2 + 0 ^ 2))) = 0
      rw [if_pos hneg]
      rw [show radius ^ 2 - ((0 : ℝ) ^ 2 + 0 ^ 2) = radius ^ 2 by ring]
      rw [Real.sqrt_sq_eq_abs, abs_of_neg hneg]
      ring
  · constructor
    · show (if radius < 0 then radius + Real.sqrt (radius ^ 2 - (x ^ 2 + y ^ 2))
        else radius - Real.sqrt (radius ^ 2 - (x ^ 2 + y ^ 2)))
          = radius - Real.sign radius * Real.sqrt (radius ^ 2 - x ^ 2 - y ^ 2)
      rw [if_neg (not_lt.mpr hpos.le), Real.sign_of_pos hpos, hrw]
      ring
    · show (if radius < 0 then radius + Real.sqrt (radius ^ 2 - (0 ^ 2 + 0 ^ 2))
        else radius - Real.sqrt (radius ^ 2 - (0 ^ 2 + 0 ^ 2))) = 0
      rw [if_neg (not_lt.mpr hpos.le)]
      rw [show radius ^ 2 - ((0 : ℝ) ^ 2 + 0 ^ 2) = radius ^ 2 by ring]
      rw [Real.sqrt_sq_eq_abs, abs_of_pos hpos]
      ring

/-- Witness for C8: the sag theorem applied at radius `2` and the vertex, giving
`sag 2 0 0 = 0`. -/
theorem sphericalSag_analytic_witness :
    (2 : ℝ) ≠ 0 ∧ (0 : ℝ) ^ 2 + 0 ^ 2 ≤ (2 : ℝ) ^ 2 ∧ SphericalSurface.sag 2 0 0 = 0 := by
  refine ⟨by norm_num, by norm_num, ?_⟩
  exact (sphericalSag_analytic 2 0 0 (by norm_num) (by norm_num)).2

/-- Dot product of two 3-vectors. -/
def dot3 (a b : Vec3 ℝ) : ℝ := ∑ i, a i * b i

/-- The reflection law `d - 2 (d . n) n` (spec section 4.3). -/
def reflectDir (d n : Vec3 ℝ) : Vec3 ℝ := fun j => d j - 2 * dot3 d n * n j

/-- Outcome of the refraction/reflection law for one ray: either an outgoing
direction from the mirror branch, an outgoing direction from the Snell branch, or
the explicitly handled total-internal-reflection case carrying the reflected
direction (spec: "treat as reflection ... this boundary case must be explicit"). -/
inductive RefractOutcome where
  | mirrored (d : Vec3 ℝ)
  | refracted (d : Vec3 ℝ)
  | totalInternalReflection (d : Vec3 ℝ)

/-- Modelled from the spec: `Surface.refract` has no implementation in the source —
the base class body (surfaces.py lines 78-85) unconditionally raises
`NotImplementedError` and no subclass overrides it — so the refraction/reflection
law is taken from spec section 4.3: if `index2 == 0` (mirror) reflect,
`d' = d - 2 (d . n) n`; otherwise with `mu = n1/n2`, `c1 = -(n . d)` and
`c2^2 = 1 - mu^2 (1 - c1^2)`, total internal reflection (handled explicitly as
reflection, never a silent NaN) when `c2^2 < 0`, else
`d' = mu d + (mu c1 - sqrt(c2^2)) n`. -/
noncomputable def Surface.refract (index1 index2 : ℝ) (d n : Vec3 ℝ) : RefractOutcome :=
  if index2 = 0 then
    RefractOutcome.mirrored (reflectDir d n)
  else
    let mu := index1 / index2
    let c1 := -(dot3 n d)
    let c2sq := 1 - mu ^ 2 * (1 - c1 ^ 2)
    if c2sq < 0 then RefractOutcome.totalInternalReflection (reflectDir d n)
    else RefractOutcome.refracted (fun j => mu * d j + (mu * c1 - Real.sqrt c2sq) * n j)

/-- C2: for every mirror (`index2 = 0`), every unit incident direction and unit
outward normal with `n . d < 0`, `Surface.refract` reflects: the outcome is
`d - 2 (d . n) n`; and in particular for `n = (0,0,1)`, `d = (0,0,1)` the outgoing
direction is `(0,0,-1)`. -/
theorem mirror_reflects (index1 : ℝ) (d n : Vec3 ℝ)
    (hd : dot3 d d = 1) (hn : dot3 n n = 1) (hdn : dot3 n d < 0) :
    Surface.refract index1 0 d n = RefractOutcome.mirrored (reflectDir d n) ∧
    Surface.refract index1 0 ![0, 0, 1] ![0, 0, 1]
      = RefractOutcome.mirrored ![0, 0, -1] := by
  constructor
  · show (if (0 : ℝ) = 0 then RefractOutcome.mirrored (reflectDir d n) else _)
      = RefractOutcome.mirrored (reflectDir d n)
    rw [if_pos rfl]
  · show (if (0 : ℝ) = 0 then
        RefractOutcome.mirrored (reflectDir ![0, 0, 1] ![0, 0, 1]) else _)
      = RefractOutcome.mirrored ![0, 0, -1]
    rw [if_pos rfl]
    have hv : reflectDir ![0, 0, 1] ![0, 0, 1] = ![(0 : ℝ), 0, -1] := by
      funext j
      fin_cases j <;>
        norm_num [reflectDir, dot3, Fin.sum_univ_three]
    rw [hv]

/-- Witness for C2: the mirror theorem applied with `index1 = 1`, `d = (0,0,1)`,
`n = (0,0,-1)` (a unit normal facing against the incident ray). -/
theorem mirror_reflects_witness :
    dot3 ![0, 0, 1] ![0, 0, 1] = 1 ∧ dot3 ![0, 0, -1] ![0, 0, -1] = 1 ∧
    dot3 ![0, 0, -1] ![0, 0, 1] < 0 ∧
    Surface.refract 1 0 ![0, 0, 1] ![0, 0, -1]
      = RefractOutcome.mirrored (reflectDir ![0, 0, 1] ![0, 0, -1]) := by
  have hd : dot3 ![0, 0, 1] ![0, 0, 1] = 1 := by norm_num [dot3, Fin.sum_univ_three]
  have hn : dot3 ![0, 0, -1] ![0, 0, -1] = 1 := by norm_num [dot3, Fin.sum_univ_three]
  have hdn : dot3 ![0, 0, -1] ![0, 0, 1] < 0 := by norm_num [dot3, Fin.sum_univ_three]
  exact ⟨hd, hn, hdn, (mirror_reflects 1 ![0, 0, 1] ![0, 0, -1] hd hn hdn).1⟩

/-- C6: whenever the Snell branch has no real solution (`index2 ≠ 0` and
`c2^2 = 1 - mu^2 (1 - c1^2) < 0`), `Surface.refract` handles the ray explicitly:
the outcome is the dedicated total-internal-reflection case carrying the reflected
direction `d - 2 (d . n) n` — a well-defined real vector, never a NaN. -/
theorem tir_handled_explicitly (index1 index2 : ℝ) (d n : Vec3 ℝ) (h2 : index2 ≠ 0)
    (htir : 1 - (index1 / index2) ^ 2 * (1 - (-(dot3 n d)) ^ 2) < 0) :
    Surface.refract index1 index2 d n
      = RefractOutcome.totalInternalReflection (reflectDir d n) := by
  show (if index2 = 0 then RefractOutcome.mirrored (reflectDir d n) else _)
      = RefractOutcome.totalInternalReflection (reflectDir d n)
  rw [if_neg h2]
  show (if 1 - (index1 / index2) ^ 2 * (1 - (-(dot3 n d)) ^ 2) < 0 then
      RefractOutcome.totalInternalReflection (reflectDir d n) else _)
    = RefractOutcome.totalInternalReflection (reflectDir d n)
  rw [if_pos htir]

/-- Witness for C6: glass-to-air (`n1 = 3/2`, `n2 = 1`) at incidence past the
critical angle, `d = (4/5, 0, 3/5)`, `n = (0, 0, -1)`: `c2^2 = -11/25 < 0`. -/
theorem tir_handled_explicitly_witness :
    (1 : ℝ) ≠ 0 ∧
    1 - ((3 / 2 : ℝ) / 1) ^ 2 * (1 - (-(dot3 ![0, 0, -1] ![4 / 5, 0, 3 / 5])) ^ 2) < 0 ∧
    Surface.refract (3 / 2) 1 ![4 / 5, 0, 3 / 5] ![0, 0, -1]
      = RefractOutcome.totalInternalReflection (reflectDir ![4 / 5, 0, 3 / 5] ![0, 0, -1]) := by
  have h2 : (1 : ℝ) ≠ 0 := one_ne_zero
  have htir : 1 - ((3 / 2 : ℝ) / 1) ^ 2 *
      (1 - (-(dot3 ![0, 0, -1] ![4 / 5, 0, 3 / 5])) ^ 2) < 0 := by
    norm_num [dot3, Fin.sum_univ_three]
  exact ⟨h2, htir, tir_handled_explicitly (3 / 2) 1 ![4 / 5, 0, 3 / 5] ![0, 0, -1] h2 htir⟩

/-- The attribute record of a Python `Surface` object. `Surface.__init__`
(surfaces.py lines 6-19) assigns exactly `origin`, `rotation`, `aperture`,
`index1`, `index2`; the subclass capability `sag` stands for the overridden sag
method.  `normal` models the attribute that `Surface.intersections` reads at
surfaces.py line 69: no code in the repository ever assigns it, so on every object
built by `__init__` it is unset (`none`) and reading it raises `AttributeError`.
Coordinates are `ℚ` so the embedded method is executable. -/
structure SurfaceObj where
  origin : Vec3 ℚ
  rotation : Mat3 ℚ
  aperture : ℚ × ℚ → Prop
  index1 : ℚ
  index2 : ℚ
  sag : ℚ → ℚ → ℚ
  normal : Option (Vec3 ℚ)

/-- Embedding of `Surface.__init__`: sets the five documented attributes (plus the
subclass `sag`), and leaves `normal` unassigned. -/
def mkSurface (origin : Vec3 ℚ) (rotation : Mat3 ℚ) (aperture : ℚ × ℚ → Prop)
    (index1 index2 : ℚ) (sag : ℚ → ℚ → ℚ) : SurfaceObj :=
  ⟨origin, rotation, aperture, index1, index2, sag, none⟩

/-- Embedding of `Surface.intersections` (surfaces.py lines 57-75).  Despite its
comment announcing a Newton-Raphson solve, the body performs a single planar
solve `t = ((origin - origins) . normal) / (directions . normal)` against
`self.normal` — an attribute that is never assigned — so the attribute read fails;
the sag function is never consulted and no iteration is performed. -/
def SurfaceObj.intersections (s : SurfaceObj) (origins directions : List (Vec3 ℚ)) :
    Except String (List (Vec3 ℚ)) :=
  match s.normal with
  | none => Except.error "AttributeError: Surface object has no attribute normal"
  | some nrm =>
      Except.ok ((origins.zip directions).map (fun od =>
        let t := (∑ i, (s.origin i - od.1 i) * nrm i) / (∑ i, od.2 i * nrm i)
        fun j => od.1 j + t * od.2 j))

/-- C1: the claim says that for a plane (`sag ≡ 0`) and the ray
`origin = (0,0,-1)`, `direction = (0,0,1)`, `Surface.intersections` returns
`(0,0,0)` at `t = 1` via a one-iteration Newton-Raphson solve.  The code instead
raises `AttributeError` on this very input (and performs no Newton iteration at
all), contradicting its own comment and docstring: a code bug. -/
theorem plane_intersections_attribute_error :
    (mkSurface (fun _ => 0) (fun i j => if i = j then 1 else 0) (fun _ => True) 1 1
        (fun _ _ => 0)).intersections [![0, 0, -1]] [![0, 0, 1]]
      = Except.error "AttributeError: Surface object has no attribute normal" := rfl

/-- The attribute record of a Python `Screen` object (screen.py lines 7-20):
`origin`, `rotation` and `aperture` only — `Screen` has NO field that stores
captured intersections, and `reset` (lines 22-24) is `pass`. -/
structure ScreenObj where
  origin : Vec3 ℚ
  rotation : Mat3 ℚ
  aperture : ℚ × ℚ → Prop

/-- Embedding of `Screen.capture` (screen.py lines 26-37) over `ℚ` (so the
`|d.z| > 1e-6` filter is executable).  Steps, exactly as in the source:
transform to local coordinates; `idx = np.where(np.abs(local_directions[:, 2]) > 1e-6)[0]`;
`t = -local_origins[idx, 2] / local_directions[idx, 2]` (one entry per SURVIVING
ray); then `t[idx]` indexes that compacted array with the ORIGINAL row indices —
an `IndexError` whenever an index reaches past its length — and the broadcast
`local_origins + t[idx][:, np.newaxis] * local_directions` needs the leading
dimensions to agree (or be 1), else `ValueError`.  The resulting
`intersection_points` value is bound and then discarded: the method stores
nothing on the screen and returns `None`. -/
def ScreenObj.capture (s : ScreenObj) (origins directions : List (Vec3 ℚ)) :
    Except String Unit := do
  let lo := (globalToLocal origins directions s.origin s.rotation).1
  let ld := (globalToLocal origins directions s.origin s.rotation).2
  let idx := (List.range ld.length).filter (fun i =>
    decide ((1e-6 : ℚ) < |(ld.getD i (fun _ => 0)) 2|))
  let t := idx.map (fun i => -((lo.getD i (fun _ => 0)) 2) / ((ld.getD i (fun _ => 0)) 2))
  let tIdx ← idx.mapM (fun i =>
    if h : i < t.length then Except.ok (t.get ⟨i, h⟩)
    else Except.error "IndexError: index out of bounds for axis 0")
  if tIdx.length = lo.length ∨ tIdx.length = 1 ∨ lo.length = 1 then
    let _intersection_points :=
      (lo.zip (tIdx.zip ld)).map (fun p => fun j => p.1 j + p.2.1 * p.2.2 j)
    Except.ok ()
  else
    Except.error "ValueError: operands could not be broadcast together"

/-- C4: the claim says `Screen.capture` records the local `(x, y)` intersection of
every non-parallel ray and a no-intersection mark for parallel rays.  The code
records nothing (the computed points are discarded and `Screen` has no capture
state), and on a bundle in which a parallel ray precedes a non-parallel one —
here ray 0 along `(1,0,0)` (parallel to the screen plane) and ray 1 from
`(0,0,-1)` along `(0,0,1)` — the compacted-array indexing `t[idx]` raises
`IndexError`: a code bug. -/
theorem capture_index_error :
    ScreenObj.capture ⟨fun _ => 0, fun i j => if i = j then 1 else 0, fun _ => True⟩
        [![0, 0, 0], ![0, 0, -1]] [![1, 0, 0], ![0, 0, 1]]
      = Except.error "IndexError: index out of bounds for axis 0" := by
  norm_num [ScreenObj.capture, globalToLocal, rowMul, transposeMat, Fin.sum_univ_three,
    List.range_succ, List.filter, bind, Except.bind, List.mapM.loop]

/-- Whether the top-level numpy module exposes an attribute `norm`.  It does not:
the vector norm routine is `numpy.linalg.norm`; `numpy.norm` raises
`AttributeError`. -/
def numpyHasNorm : Bool := false

/-- Embedding of `CircularAperture.contains` (apertures.py lines 30-36).  The body
is `return np.norm(points, axis=1) < self.radius`; the attribute access `np.norm`
fails before any comparison is made.  Had the lookup succeeded, the result would
be the boolean mask `‖p‖ < radius` (strict), as in the `.ok` branch. -/
noncomputable def CircularAperture.contains (radius : ℝ) (points : List (ℝ × ℝ)) :
    Except String (List Prop) :=
  if numpyHasNorm then
    Except.ok (points.map (fun p => Real.sqrt (p.1 ^ 2 + p.2 ^ 2) < radius))
  else
    Except.error "AttributeError: module numpy has no attribute norm"

/-- C9: the claim says `CircularAperture.contains` reports a point as inside
exactly when its distance from the origin is strictly below the radius, with
boundary points reported as misses.  The code calls `np.norm`, which does not
exist in numpy (the function is `np.linalg.norm`), so `contains` raises
`AttributeError` on every call — here on the single point `(0, 0)` with radius
`1` — instead of returning any mask: a code bug. -/
theorem circular_contains_attribute_error :
    CircularAperture.contains 1 [(0, 0)]
      = Except.error "AttributeError: module numpy has no attribute norm" := rfl

/-- The methods that `rays.py` defines on `RayBundle` (its complete method set:
lines 21, 25, 35).  `sources.py` line 92 calls `rays.transformFromLocalToGlobal`,
which is NOT among them, so that call raises `AttributeError`. -/
def rayBundleMethods : List String :=
  ["normalizeDirections", "localToGlobal", "globalToLocal"]

/-- The columnar ray-bundle record (rays.py lines 4-19). -/
structure RayBundleData where
  origins : List (Vec3 ℝ)
  directions : List (Vec3 ℝ)
  lengths : List ℝ
  wavelengths_m : List ℝ
  powers_w : List ℝ
  display_rays : List ℕ

/-- Embedding of `RayBundle.normalizeDirections` (rays.py lines 21-23): each
direction is divided by its euclidean norm; all other columns are untouched. -/
noncomputable def RayBundleData.normalizeDirections (b : RayBundleData) : RayBundleData :=
  { b with directions :=
      b.directions.map (fun d => fun j => d j / Real.sqrt (∑ i, d i ^ 2)) }

/-- A `GaussianBeamSource` (sources.py lines 24-39).  The second constructor
parameter is named `direction` in the source but is stored as the frame
`rotation` via `super().__init__`; we keep the stored-field name. -/
structure GaussianBeamSource where
  origin : Vec3 ℝ
  rotation : Mat3 ℝ
  waist_x : ℝ
  waist_y : ℝ
  power_w : ℝ
  wavelength_m : ℝ

/-- Embedding of the bundle built by `GaussianBeamSource.generate` (sources.py
lines 47-91): the state of the local variable `rays` just before the failing
line 92.  The 13 display rays are the center ray plus 12 ellipse rays at angles
`2 pi k / 12` (`np.linspace(0, 2 pi, 12, endpoint=False)`); the bulk rays are
`n_rays` random start/end samples, passed here as the functions `randStartX`,
`randStartY`, `randEndX`, `randEndY` standing for the `np.random.normal` draws.
Powers: `np.full(13, 0)` for the display rays then `power_w / n_rays` for each
bulk ray; `display_rays = range(1 + 12)`.  The construction ends with
`normalizeDirections` (line 91). -/
noncomputable def GaussianBeamSource.generateBundle (src : GaussianBeamSource)
    (n_rays : ℕ) (randStartX randStartY randEndX randEndY : ℕ → ℝ) : RayBundleData :=
  let zr_x := Real.pi * src.waist_x ^ 2 / src.wavelength_m
  let zr_y := Real.pi * src.waist_y ^ 2 / src.wavelength_m
  let size_1m_x := src.waist_x * Real.sqrt (1 + (1 / zr_x) ^ 2)
  let size_1m_y := src.waist_y * Real.sqrt (1 + (1 / zr_y) ^ 2)
  let ellipseThetas := (List.range 12).map (fun k => 2 * Real.pi * k / 12)
  let dispOrigins : List (Vec3 ℝ) :=
    ![0, 0, 0] :: ellipseThetas.map (fun a =>
      ![src.waist_x * Real.cos a, src.waist_y * Real.sin a, 0])
  let dispDirections : List (Vec3 ℝ) :=
    ![0, 0, 1] :: ellipseThetas.map (fun a =>
      ![size_1m_x * Real.cos a - src.waist_x * Real.cos a,
        size_1m_y * Real.sin a - src.waist_y * Real.sin a, 1])
  let starts := (List.range n_rays).map (fun i =>
    (![randStartX i, randStartY i, 0] : Vec3 ℝ))
  let ends := (List.range n_rays).map (fun i =>
    (![randEndX i, randEndY i, 1] : Vec3 ℝ))
  RayBundleData.normalizeDirections
    { origins := dispOrigins ++ starts
      directions := dispDirections ++ (starts.zip ends).map (fun p => fun j => p.2 j - p.1 j)
      lengths := List.replicate (13 + n_rays) 0
      wavelengths_m := List.replicate (13 + n_rays) src.wavelength_m
      powers_w := List.replicate 13 (0 : ℝ) ++ List.replicate n_rays (src.power_w / n_rays)
      display_rays := List.range 13 }

/-- Embedding of `GaussianBeamSource.generate` (sources.py lines 41-94): after
building and normalizing the bundle, line 92 invokes
`rays.transformFromLocalToGlobal(self.origin, self.rotation)` — an attribute
lookup on the `RayBundle` method set.  The lookup fails (see
`rayBundleMethods`), so `generate` raises instead of returning; the `.ok`
branch is unreachable. -/
noncomputable def GaussianBeamSource.generate (src : GaussianBeamSource) (n_rays : ℕ)
    (randStartX randStartY randEndX randEndY : ℕ → ℝ) : Except String RayBundleData :=
  let rays := src.generateBundle n_rays randStartX randStartY randEndX randEndY
  if "transformFromLocalToGlobal" ∈ rayBundleMethods then
    Except.ok rays
  else
    Except.error "AttributeError: RayBundle object has no attribute transformFromLocalToGlobal"

/-- C5: the claim says `generate(n_rays)` returns a non-empty global-frame
bundle with at least `n_rays` rows.  The code never returns a bundle: for every
source, every `n_rays` and every sequence of random draws it raises
`AttributeError` at the `transformFromLocalToGlobal` call (rays.py defines no
such method): a code bug, also exercised (and crashed) by
`tests/test_system.py` via `System.propagate(1000)`. -/
theorem generate_attribute_error (src : GaussianBeamSource) (n_rays : ℕ)
    (randStartX randStartY randEndX randEndY : ℕ → ℝ) :
    src.generate n_rays randStartX randStartY randEndX randEndY
      = Except.error
          "AttributeError: RayBundle object has no attribute transformFromLocalToGlobal" := by
  simp [GaussianBeamSource.generate, rayBundleMethods]

/-- Counterexample for C10 as stated: `generate` returns no `RayBundle` at all —
at the concrete source of `tests/test_system.py` (waists `1e-6`/`2e-6`, power
`1` W, wavelength `850e-9` m) with `n_rays = 1` and zero random draws it
evaluates to an `AttributeError`, so no bundle "returned by generate" carries
the claimed powers. -/
theorem generate_returns_no_bundle :
    GaussianBeamSource.generate
        ⟨fun _ => 0, fun i j => if i = j then 1 else 0, 1e-6, 2e-6, 1, 850e-9⟩ 1
        (fun _ => 0) (fun _ => 0) (fun _ => 0) (fun _ => 0)
      = Except.error
          "AttributeError: RayBundle object has no attribute transformFromLocalToGlobal" := by
  simp [GaussianBeamSource.generate, rayBundleMethods]

/-- C10 (amended): for every `n_rays > 0`, the bundle CONSTRUCTED by
`GaussianBeamSource.generate` (the local `rays` value just before the crashing
`transformFromLocalToGlobal` call) assigns power `0` to each of its 13 display
rays — rows `0..12`, exactly the display-ray index set — and `power_w / n_rays`
to each of the `n_rays` bulk rays, so the total power of the non-display rows
equals `power_w`. -/
theorem gaussian_generateBundle_powers (src : GaussianBeamSource) (n_rays : ℕ)
    (hn : 0 < n_rays) (randStartX randStartY randEndX randEndY : ℕ → ℝ) :
    (src.generateBundle n_rays randStartX randStartY randEndX randEndY).display_rays
      = List.range 13 ∧
    (src.generateBundle n_rays randStartX randStartY randEndX randEndY).powers_w.length
      = 13 + n_rays ∧
    (∀ i ∈ (src.generateBundle n_rays randStartX randStartY randEndX randEndY).display_rays,
      (src.generateBundle n_rays randStartX randStartY randEndX randEndY).powers_w.getD i 1
        = 0) ∧
    (∀ i, 13 ≤ i → i < 13 + n_rays →
      (src.generateBundle n_rays randStartX randStartY randEndX randEndY).powers_w.getD i 0
        = src.power_w / n_rays) ∧
    ((src.generateBundle n_rays randStartX randStartY randEndX randEndY).powers_w.drop 13).sum
      = src.power_w := by
  have hp : (src.generateBundle n_rays randStartX randStartY randEndX randEndY).powers_w
      = List.replicate 13 (0 : ℝ) ++ List.replicate n_rays (src.power_w / n_rays) := rfl
  have hdisp :
      (src.generateBundle n_rays randStartX randStartY randEndX randEndY).display_rays
      = List.range 13 := rfl
  have hne : (n_rays : ℝ) ≠ 0 := Nat.cast_ne_zero.mpr hn.ne'
  refine ⟨hdisp, ?_, ?_, ?_, ?_⟩
  · rw [hp]; simp; omega
  · intro i hi
    rw [hdisp, List.mem_range] at hi
    rw [hp, List.getD_append _ _ _ _ (by simpa using hi),
      List.getD_eq_getElem _ _ (by simpa using hi)]
    exact List.getElem_replicate _ _
  · intro i h13 hlt
    rw [hp, List.getD_append_right _ _ _ _ (by simpa using h13)]
    simp only [List.length_replicate]
    have hsub : i - 13 < n_rays := by omega
    rw [List.getD_eq_getElem _ _ (by simpa using hsub)]
    exact List.getElem_replicate _ _
  · rw [hp]
    have hd : (List.replicate 13 (0 : ℝ) ++
        List.replicate n_rays (src.power_w / n_rays)).drop 13
        = List.replicate n_rays (src.power_w / n_rays) := by
      have := List.drop_left (List.replicate 13 (0 : ℝ))
        (List.replicate n_rays (src.power_w / n_rays))
      simpa using this
    rw [hd, List.sum_replicate, nsmul_eq_mul, mul_comm, div_mul_cancel₀ _ hne]

/-- Witness for C10's amended theorem: the test-file source with `n_rays = 1`
and zero draws; the non-display power sums to the source power `1` W. -/
theorem gaussian_generateBundle_powers_witness :
    (0 : ℕ) < 1 ∧
    (((⟨fun _ => 0, fun i j => if i = j then 1 else 0, 1e-6, 2e-6, 1, 850e-9⟩ :
          GaussianBeamSource).generateBundle 1
        (fun _ => 0) (fun _ => 0) (fun _ => 0) (fun _ => 0)).powers_w.drop 13).sum = 1 := by
  refine ⟨by norm_num, ?_⟩
  exact (gaussian_generateBundle_powers _ 1 (by norm_num)
    (fun _ => 0) (fun _ => 0) (fun _ => 0) (fun _ => 0)).2.2.2.2
